import Mathlib

/-!
Shallow embedding of `src/src/main.rs` of micro-rdk-temperature-dev-project:
the ESP32 boot sequence (credential bootstrap from build-time fallbacks,
module registration, WebRTC certificate generation, resource-supervisor
spawn, and server assembly terminating in `run_forever`).

External collaborators (the micro_rdk library, ESP-IDF, NVS flash) are
consumed through abstract interfaces, so their fallible calls are modelled
by Boolean outcome parameters collected in `Env`, and the value produced by
the certificate generator is an `Env` field. A Rust panic raised through
`.expect(..)` / `.unwrap()` is modelled by `Outcome.panicked msg` carrying
the `.expect` message.
-/

set_option autoImplicit false

namespace MicroRdk

/-- Build-time optional constants, lines 1-5 of `main.rs`
(`option_env!` values `MICRO_RDK_WIFI_SSID`, `MICRO_RDK_WIFI_PASSWORD`,
`MICRO_RDK_ROBOT_ID`, `MICRO_RDK_ROBOT_SECRET`,
`MICRO_RDK_ROBOT_APP_ADDRESS`). -/
structure BuildConfig where
  SSID : Option String
  PASS : Option String
  ROBOT_ID : Option String
  ROBOT_SECRET : Option String
  ROBOT_APP_ADDRESS : Option String
deriving DecidableEq, Repr

/-- A stored default-network record (ssid + password pair). -/
structure NetworkCredentials where
  ssid : String
  pass : String
deriving DecidableEq, Repr

/-- `RobotCredentials` of the micro_rdk library: machine id, secret and the
parsed app address. -/
structure RobotCredentials where
  robot_id : String
  robot_secret : String
  app_address : String
deriving DecidableEq, Repr

/-- `RobotCredentials::new(id, secret, app_address)` of the micro_rdk
library (an external collaborator): construction parses the app address
and fails when it does not parse. The parser itself lives outside this
repository, so it is a parameter `parseAddrOk`. -/
def RobotCredentials.new (parseAddrOk : String → Bool)
    (id secret addr : String) : Option RobotCredentials :=
  if parseAddrOk addr then some ⟨id, secret, addr⟩ else none

/-- The NVS credential store state: at most one record per category. -/
structure Storage where
  network : Option NetworkCredentials
  robot : Option RobotCredentials
deriving DecidableEq, Repr

/-- `storage.has_default_network()` — existence check for the network
record. -/
def Storage.has_default_network (s : Storage) : Bool :=
  s.network.isSome

/-- `storage.has_robot_credentials()` — existence check for the machine
credentials record. -/
def Storage.has_robot_credentials (s : Storage) : Bool :=
  s.robot.isSome

/-- Successful effect of `storage.store_default_network(ssid, pass)`. -/
def Storage.store_default_network (s : Storage) (ssid pass : String) :
    Storage :=
  { s with network := some ⟨ssid, pass⟩ }

/-- Successful effect of `storage.store_robot_credentials(creds)`. -/
def Storage.store_robot_credentials (s : Storage) (c : RobotCredentials) :
    Storage :=
  { s with robot := some c }

/-- Error type of a module registration hook (`RegistryError`), recording
which module failed. -/
structure RegistryError where
  module : String
deriving DecidableEq, Repr

/-- A build-configured capability module: its name and whether its
`register_models` hook succeeds when invoked. -/
structure Module where
  name : String
  registerOk : Bool
deriving DecidableEq, Repr

/-- The component registry, abstracted to the list of registered
capability names (`Box::<ComponentRegistry>::default()` is the empty
list). -/
abbrev ComponentRegistry := List String

/-- `$module::register_models(registry)`: a succeeding hook registers the
module's models (its name here) into the registry; a failing hook returns
a `RegistryError` and registers nothing. -/
def Module.register_models (m : Module) (r : ComponentRegistry) :
    Except RegistryError ComponentRegistry :=
  if m.registerOk then .ok (r ++ [m.name]) else .error ⟨m.name⟩

/-- `register_modules` as generated at lines 30-41 of `main.rs`: invoke
each module's hook in order, propagating the first error with `?`.
Because the registry is passed by `&mut`, registrations made before the
failing hook persist; the result is the final registry contents together
with the returned error, if any. -/
def register_modules :
    List Module → ComponentRegistry →
      ComponentRegistry × Option RegistryError
  | [], r => (r, none)
  | m :: ms, r =>
    match m.register_models r with
    | .ok r2 => register_modules ms r2
    | .error e => (r, some e)

/-- Observable boot events, in the order `main` performs them. The two
`Checked` events mark the `has_default_network` / `has_robot_credentials`
queries of the bootstrap resolver; the two `store` events are its
persistent writes. -/
inductive Event
  | networkChecked
  | storeNetwork (ssid pass : String)
  | robotChecked
  | storeRobot (c : RobotCredentials)
  | registryInitialized
  | certGenerated
  | supervisorSpawned
  | serverBuilt
  | runForever
deriving DecidableEq, Repr

/-- Events belonging to the credential-resolution phase (lines 63-96). -/
def Event.isResolutionEvent : Event → Bool
  | .networkChecked => true
  | .storeNetwork _ _ => true
  | .robotChecked => true
  | .storeRobot _ => true
  | _ => false

/-- The generated self-signed WebRTC certificate plus key material
(`GeneratedWebRtcCertificateBuilder::default().build()`). -/
structure Certificate where
  der : String
  key : String
deriving DecidableEq, Repr

/-- `Rc<T>`: a reference-counted shared value; `alloc` identifies the
allocation, so two `Rc`s with equal `alloc` share one value. -/
structure Rc (α : Type) where
  alloc : Nat
  val : α
deriving DecidableEq, Repr

/-- `Rc::clone` hands out another handle to the same allocation. -/
def Rc.clone {α : Type} (r : Rc α) : Rc α := r

/-- `Esp32DtlsBuilder`: the secure negotiation backend, holding a shared
handle to the certificate. -/
structure Esp32DtlsBuilder where
  cert : Rc Certificate
deriving DecidableEq, Repr

/-- `Esp32DtlsBuilder::new(cert)`. -/
def Esp32DtlsBuilder.new (c : Rc Certificate) : Esp32DtlsBuilder := ⟨c⟩

/-- `WebRtcConfiguration::new(cert, dtls)`: outward-facing configuration
holding its own shared handle next to the backend's. -/
structure WebRtcConfiguration where
  cert : Rc Certificate
  dtls : Esp32DtlsBuilder
deriving DecidableEq, Repr

/-- `WebRtcConfiguration::new`. -/
def WebRtcConfiguration.new (c : Rc Certificate) (d : Esp32DtlsBuilder) :
    WebRtcConfiguration := ⟨c, d⟩

/-- `ProvisioningInfo` with manufacturer and model set (lines 98-100). -/
structure ProvisioningInfo where
  manufacturer : String
  model : String
deriving DecidableEq, Repr

/-- The built Viam server value: what `ViamServerBuilder::build` assembled
from the storage, provisioning info, WebRTC configuration, registry and
the fixed HTTP2 port 12346. -/
structure ViamServer where
  storage : Storage
  provisioning : ProvisioningInfo
  webrtc_config : WebRtcConfiguration
  registry : ComponentRegistry
  http2_port : Nat
deriving DecidableEq, Repr

/-- Outcomes of external fallible calls made by `main`, plus the module
list spliced in by the build (`modules.rs`) and the certificate value the
generator produces. -/
structure Env where
  parseAddrOk : String → Bool
  netWriteOk : Bool
  robotWriteOk : Bool
  certGenOk : Bool
  wifiOk : Bool
  mdnsOk : Bool
  cert : Certificate
  modules : List Module

/-- Process outcome: `panicked msg` models a Rust panic via
`.expect(msg)` / `.unwrap()`; `running` means control reached
`server.run_forever()`. -/
inductive Outcome
  | panicked (msg : String)
  | running
deriving DecidableEq, Repr

/-- Network-credential resolution, lines 63-75 of `main.rs`: if storage
has no default network and both `SSID` and `PASS` were compiled in, store
them (the `.expect` message on a failed write becomes a panic); otherwise
do nothing. Returns the storage afterwards and the emitted events. -/
def resolveNetwork (cfg : BuildConfig) (netWriteOk : Bool) (s : Storage) :
    Except String (Storage × List Event) :=
  if s.has_default_network then .ok (s, [.networkChecked])
  else
    match cfg.SSID, cfg.PASS with
    | some ssid, some pass =>
      if netWriteOk then
        .ok (s.store_default_network ssid pass,
          [.networkChecked, .storeNetwork ssid pass])
      else .error "failed to store network settings to storage"
    | _, _ => .ok (s, [.networkChecked])

/-- Robot-credential resolution, lines 77-96 of `main.rs`: if storage has
no robot credentials and `ROBOT_ID`, `ROBOT_SECRET` and
`ROBOT_APP_ADDRESS` were all compiled in, construct `RobotCredentials`
(panicking if the address does not parse) and store them (panicking if
the write fails); otherwise do nothing. -/
def resolveRobot (cfg : BuildConfig) (parseAddrOk : String → Bool)
    (robotWriteOk : Bool) (s : Storage) :
    Except String (Storage × List Event) :=
  if s.has_robot_credentials then .ok (s, [.robotChecked])
  else
    match cfg.ROBOT_ID, cfg.ROBOT_SECRET, cfg.ROBOT_APP_ADDRESS with
    | some id, some secret, some addr =>
      match RobotCredentials.new parseAddrOk id secret addr with
      | some creds =>
        if robotWriteOk then
          .ok (s.store_robot_credentials creds,
            [.robotChecked, .storeRobot creds])
        else .error "failed to store machine credentials to storage"
      | none => .error "failed to parse app address"
    | _, _, _ => .ok (s, [.robotChecked])

/-- Result of running the boot sequence: the process outcome, the event
trace up to the panic or up to `run_forever`, the storage and registry at
that point, and the built server when assembly was reached. -/
structure BootResult where
  outcome : Outcome
  trace : List Event
  storage : Storage
  registry : ComponentRegistry
  server : Option ViamServer
deriving Repr

/-- `main` (lines 45-165 of `main.rs`), after hardware/logger init:
resolve network then robot credentials (lines 63-96), build provisioning
info (98-100), register modules into a default registry logging any error
(102-105), generate the WebRTC certificate and bind it via `Rc` to the
DTLS builder and the WebRTC configuration (106-111), spawn the resource
supervisor task (113-149), then assemble the server with the wifi manager
and mdns (151-162, both `.unwrap()`), and call `run_forever` (164). -/
def main (cfg : BuildConfig) (env : Env) (s0 : Storage) : BootResult :=
  match resolveNetwork cfg env.netWriteOk s0 with
  | .error msg => ⟨.panicked msg, [], s0, [], none⟩
  | .ok (s1, t1) =>
    match resolveRobot cfg env.parseAddrOk env.robotWriteOk s1 with
    | .error msg => ⟨.panicked msg, t1, s1, [], none⟩
    | .ok (s2, t2) =>
      let info : ProvisioningInfo := ⟨"viam", "esp32"⟩
      let reg := register_modules env.modules []
      let t3 := t1 ++ t2 ++ [Event.registryInitialized]
      if env.certGenOk then
        let webrtc_certs : Rc Certificate := ⟨0, env.cert⟩
        let dtls := Esp32DtlsBuilder.new webrtc_certs.clone
        let webrtc_config := WebRtcConfiguration.new webrtc_certs dtls
        let t4 := t3 ++ [Event.certGenerated, Event.supervisorSpawned]
        if env.wifiOk then
          if env.mdnsOk then
            ⟨.running, t4 ++ [Event.serverBuilt, Event.runForever], s2,
              reg.1, some ⟨s2, info, webrtc_config, reg.1, 12346⟩⟩
          else ⟨.panicked "mdns creation failed", t4, s2, reg.1, none⟩
        else
          ⟨.panicked "wifi network creation failed", t4, s2, reg.1, none⟩
      else
        ⟨.panicked "certificate generation failed", t3, s2, reg.1, none⟩

/-- Free-memory fraction as the Resource Supervisor computes it at lines
131-142: `(free as f32) / (total as f32) * 100.0`. At the inputs the
claims consider every f32 operation is exact, so the value is a rational;
a zero total makes the f32 quotient non-finite (NaN for `0/0`), modelled
as `none`. f32 division never traps, so this is a total function: no
input panics. -/
def memFreePct (free total : Nat) : Option ℚ :=
  if total = 0 then none
  else some ((free : ℚ) / (total : ℚ) * 100)

/-- Left-pad a two-digit fractional part with a zero. -/
def pad2 (n : Nat) : String :=
  if n < 10 then "0" ++ toString n else toString n

/-- Rendering with Rust's `{:.2}` format at exactly representable values:
round to the nearest hundredth and print two decimals; the non-finite
case prints `NaN`. -/
def format2 : Option ℚ → String
  | none => "NaN"
  | some q =>
    let h : ℤ := round (q * 100)
    toString (h / 100) ++ "." ++ pad2 (h % 100).toNat

/-! ### Helper lemmas -/

/-- A successful network-resolution step never touches the robot record. -/
theorem resolveNetwork_robot (cfg : BuildConfig) (nw : Bool)
    (s s1 : Storage) (t1 : List Event)
    (h : resolveNetwork cfg nw s = .ok (s1, t1)) : s1.robot = s.robot := by
  unfold resolveNetwork at h
  split at h
  · simp only [Except.ok.injEq, Prod.mk.injEq] at h
    rw [← h.1]
  · split at h
    · split at h
      · simp only [Except.ok.injEq, Prod.mk.injEq] at h
        rw [← h.1]
        rfl
      · exact absurd h (by simp)
    · simp only [Except.ok.injEq, Prod.mk.injEq] at h
      rw [← h.1]

/-- Every event a successful network-resolution step emits belongs to the
resolution phase. -/
theorem resolveNetwork_events (cfg : BuildConfig) (nw : Bool)
    (s s1 : Storage) (t1 : List Event)
    (h : resolveNetwork cfg nw s = .ok (s1, t1)) :
    t1.all Event.isResolutionEvent = true := by
  unfold resolveNetwork at h
  split at h
  · simp only [Except.ok.injEq, Prod.mk.injEq] at h
    rw [← h.2]
    rfl
  · split at h
    · split at h
      · simp only [Except.ok.injEq, Prod.mk.injEq] at h
        rw [← h.2]
        rfl
      · exact absurd h (by simp)
    · simp only [Except.ok.injEq, Prod.mk.injEq] at h
      rw [← h.2]
      rfl

/-- Every event a successful robot-resolution step emits belongs to the
resolution phase. -/
theorem resolveRobot_events (cfg : BuildConfig) (p : String → Bool)
    (rw : Bool) (s s1 : Storage) (t1 : List Event)
    (h : resolveRobot cfg p rw s = .ok (s1, t1)) :
    t1.all Event.isResolutionEvent = true := by
  unfold resolveRobot at h
  split at h
  · simp only [Except.ok.injEq, Prod.mk.injEq] at h
    rw [← h.2]
    rfl
  · split at h
    · split at h
      · split at h
        · simp only [Except.ok.injEq, Prod.mk.injEq] at h
          rw [← h.2]
          rfl
        · exact absurd h (by simp)
      · exact absurd h (by simp)
    · simp only [Except.ok.injEq, Prod.mk.injEq] at h
      rw [← h.2]
      rfl

/-- An event that is not a resolution event does not occur in a trace made
of resolution events only. -/
theorem not_mem_of_resolution_trace {t : List Event} {e : Event}
    (h : t.all Event.isResolutionEvent = true)
    (he : Event.isResolutionEvent e = false) : e ∉ t := by
  intro hm
  have := List.all_eq_true.mp h e hm
  rw [he] at this
  exact Bool.false_ne_true this

/-- Hooks that succeed are invoked in order and register their modules
before the rest of the list is processed. -/
theorem register_modules_ok_append (pre ms : List Module)
    (r : ComponentRegistry) (hpre : ∀ x ∈ pre, x.registerOk = true) :
    register_modules (pre ++ ms) r =
      register_modules ms (r ++ pre.map Module.name) := by
  induction pre generalizing r with
  | nil => simp
  | cons a as ih =>
    have ha : a.registerOk = true := hpre a (by simp)
    have has : ∀ x ∈ as, x.registerOk = true := fun x hx => hpre x (by simp [hx])
    simp only [List.cons_append, register_modules, Module.register_models, ha,
      if_true, List.map_cons]
    rw [show as.append ms = as ++ ms from rfl, ih _ has]
    simp [List.append_assoc]

/-! ### Claim theorems -/

/-- C1, counterexample: the claim "a registration failure of one module
does not prevent the other modules from being registered; every module
whose hook succeeds remains registered" is false on the code. With the
build-configured list `[a (failing), b (succeeding)]`, the `?` in
`register_modules` aborts at `a`, so `b` — whose hook succeeds — is never
registered. -/
theorem c1_counterexample :
    ¬ ∀ m ∈ [Module.mk "a" false, Module.mk "b" true],
        m.registerOk = true →
          m.name ∈ (register_modules
            [Module.mk "a" false, Module.mk "b" true] []).1 := by
  decide

/-- C1 (amended): registration stops at the first failing hook. For any
mix of modules, after `register_modules` exactly the modules strictly
before the first failure are registered (in list order); the failing
module's error is returned, and (see C7) `main` only logs it and
continues. -/
theorem c1_registration_stops_at_first_failure (pre : List Module)
    (m : Module) (post : List Module)
    (hpre : ∀ x ∈ pre, x.registerOk = true) (hm : m.registerOk = false) :
    register_modules (pre ++ m :: post) [] =
      (pre.map Module.name, some ⟨m.name⟩) := by
  rw [register_modules_ok_append pre (m :: post) [] hpre]
  simp [register_modules, Module.register_models, hm]

/-- C1 witness: with a succeeding, then a failing, then a succeeding
module, only the first is registered and the failure is reported. -/
theorem c1_registration_stops_witness :
    register_modules
      [Module.mk "good" true, Module.mk "bad" false, Module.mk "late" true]
      [] = (["good"], some ⟨"bad"⟩) :=
  c1_registration_stops_at_first_failure [Module.mk "good" true]
    (Module.mk "bad" false) [Module.mk "late" true] (by decide) (by decide)

/-- C2: for each credential category, if the store already reports an
existing record, the resolver performs no store-write call for that
category, leaves the stored record unmodified, and — being a pure
function of the storage — running it again with populated storage is the
same no-op. -/
theorem c2_populated_storage_is_noop (cfg : BuildConfig)
    (p : String → Bool) (nw rw : Bool) (s : Storage) :
    (s.has_default_network = true →
      resolveNetwork cfg nw s = .ok (s, [Event.networkChecked])) ∧
    (s.has_robot_credentials = true →
      resolveRobot cfg p rw s = .ok (s, [Event.robotChecked])) := by
  constructor
  · intro h
    simp [resolveNetwork, h]
  · intro h
    simp [resolveRobot, h]

/-- C2 witness: on a storage holding both records the resolver writes
nothing and returns the storage unchanged. -/
theorem c2_populated_storage_is_noop_witness :
    resolveNetwork ⟨some "s", some "p", none, none, none⟩ true
        ⟨some ⟨"net", "pw"⟩, some ⟨"id", "sec", "addr"⟩⟩ =
      .ok (⟨some ⟨"net", "pw"⟩, some ⟨"id", "sec", "addr"⟩⟩,
        [Event.networkChecked]) ∧
    resolveRobot ⟨some "s", some "p", none, none, none⟩ (fun _ => true) true
        ⟨some ⟨"net", "pw"⟩, some ⟨"id", "sec", "addr"⟩⟩ =
      .ok (⟨some ⟨"net", "pw"⟩, some ⟨"id", "sec", "addr"⟩⟩,
        [Event.robotChecked]) :=
  ⟨(c2_populated_storage_is_noop ⟨some "s", some "p", none, none, none⟩
      (fun _ => true) true true
      ⟨some ⟨"net", "pw"⟩, some ⟨"id", "sec", "addr"⟩⟩).1 rfl,
    (c2_populated_storage_is_noop ⟨some "s", some "p", none, none, none⟩
      (fun _ => true) true true
      ⟨some ⟨"net", "pw"⟩, some ⟨"id", "sec", "addr"⟩⟩).2 rfl⟩

/-- C3: for each credential category, on an empty store with the full
fallback compiled in (and, for the robot category, a parsing address),
the resolver performs exactly one store-write carrying exactly the
fallback values — the trace holds a single store event — and a second
run on the now-populated storage performs no further writes. -/
theorem c3_empty_storage_full_fallback_single_write (cfg : BuildConfig)
    (p : String → Bool) (nw rw : Bool) (s : Storage) :
    (∀ ssid pass, s.network = none → cfg.SSID = some ssid →
      cfg.PASS = some pass →
      resolveNetwork cfg true s =
        .ok (s.store_default_network ssid pass,
          [Event.networkChecked, Event.storeNetwork ssid pass]) ∧
      resolveNetwork cfg nw (s.store_default_network ssid pass) =
        .ok (s.store_default_network ssid pass, [Event.networkChecked])) ∧
    (∀ id secret addr, s.robot = none → cfg.ROBOT_ID = some id →
      cfg.ROBOT_SECRET = some secret → cfg.ROBOT_APP_ADDRESS = some addr →
      p addr = true →
      resolveRobot cfg p true s =
        .ok (s.store_robot_credentials ⟨id, secret, addr⟩,
          [Event.robotChecked, Event.storeRobot ⟨id, secret, addr⟩]) ∧
      resolveRobot cfg p rw (s.store_robot_credentials ⟨id, secret, addr⟩) =
        .ok (s.store_robot_credentials ⟨id, secret, addr⟩,
          [Event.robotChecked])) := by
  constructor
  · intro ssid pass hs hS hP
    constructor
    · simp [resolveNetwork, Storage.has_default_network, hs, hS, hP]
    · simp [resolveNetwork, Storage.has_default_network,
        Storage.store_default_network]
  · intro id secret addr hs hI hS hA hp
    constructor
    · simp [resolveRobot, Storage.has_robot_credentials, hs, hI, hS, hA,
        RobotCredentials.new, hp]
    · simp [resolveRobot, Storage.has_robot_credentials,
        Storage.store_robot_credentials]

/-- C3 witness: first boot with empty storage and full fallback stores the
fallback once; the repeated run writes nothing. -/
theorem c3_single_write_witness :
    resolveNetwork ⟨some "net", some "pw", none, none, none⟩ true
        ⟨none, none⟩ =
      .ok (⟨some ⟨"net", "pw"⟩, none⟩,
        [Event.networkChecked, Event.storeNetwork "net" "pw"]) ∧
    resolveNetwork ⟨some "net", some "pw", none, none, none⟩ true
        ⟨some ⟨"net", "pw"⟩, none⟩ =
      .ok (⟨some ⟨"net", "pw"⟩, none⟩, [Event.networkChecked]) ∧
    resolveRobot ⟨none, none, some "id", some "sec", some "addr"⟩
        (fun _ => true) true ⟨none, none⟩ =
      .ok (⟨none, some ⟨"id", "sec", "addr"⟩⟩,
        [Event.robotChecked, Event.storeRobot ⟨"id", "sec", "addr"⟩]) ∧
    resolveRobot ⟨none, none, some "id", some "sec", some "addr"⟩
        (fun _ => true) true ⟨none, some ⟨"id", "sec", "addr"⟩⟩ =
      .ok (⟨none, some ⟨"id", "sec", "addr"⟩⟩, [Event.robotChecked]) := by
  refine ⟨?_, ?_, ?_, ?_⟩
  · exact ((c3_empty_storage_full_fallback_single_write
      ⟨some "net", some "pw", none, none, none⟩ (fun _ => true) true true
      ⟨none, none⟩).1 "net" "pw" rfl rfl rfl).1
  · exact ((c3_empty_storage_full_fallback_single_write
      ⟨some "net", some "pw", none, none, none⟩ (fun _ => true) true true
      ⟨none, none⟩).1 "net" "pw" rfl rfl rfl).2
  · exact ((c3_empty_storage_full_fallback_single_write
      ⟨none, none, some "id", some "sec", some "addr"⟩ (fun _ => true)
      true true ⟨none, none⟩).2 "id" "sec" "addr" rfl rfl rfl rfl rfl).1
  · exact ((c3_empty_storage_full_fallback_single_write
      ⟨none, none, some "id", some "sec", some "addr"⟩ (fun _ => true)
      true true ⟨none, none⟩).2 "id" "sec" "addr" rfl rfl rfl rfl rfl).2

/-- A partially present network fallback makes network resolution a no-op
regardless of storage and write outcome. -/
theorem resolveNetwork_partial (cfg : BuildConfig) (nw : Bool) (s : Storage)
    (h : (cfg.SSID.isSome && cfg.PASS.isSome) = false) :
    resolveNetwork cfg nw s = .ok (s, [Event.networkChecked]) := by
  unfold resolveNetwork
  split
  · rfl
  · cases hS : cfg.SSID with
    | none => rfl
    | some ssid =>
      cases hP : cfg.PASS with
      | none => rfl
      | some pass => rw [hS, hP] at h; exact absurd h (by simp)

/-- A partially present robot fallback makes robot resolution a no-op
regardless of storage, parser and write outcome. -/
theorem resolveRobot_partial (cfg : BuildConfig) (p : String → Bool)
    (rw : Bool) (s : Storage)
    (h : (cfg.ROBOT_ID.isSome && cfg.ROBOT_SECRET.isSome &&
      cfg.ROBOT_APP_ADDRESS.isSome) = false) :
    resolveRobot cfg p rw s = .ok (s, [Event.robotChecked]) := by
  unfold resolveRobot
  split
  · rfl
  · cases hI : cfg.ROBOT_ID with
    | none => rfl
    | some id =>
      cases hS : cfg.ROBOT_SECRET with
      | none => rfl
      | some secret =>
        cases hA : cfg.ROBOT_APP_ADDRESS with
        | none => rfl
        | some addr => rw [hI, hS, hA] at h; exact absurd h (by simp)

/-- C4: for each credential category, when the store reports no record and
the fallback is only partially present, the resolver performs no
store-write and constructs no credential for that category (the result is
independent of the parser and of the write outcomes), and this absence is
no error: with both fallbacks partial, boot continues all the way to
`run_forever` whenever the later external calls succeed. -/
theorem c4_partial_fallback_no_write (cfg : BuildConfig)
    (p : String → Bool) (nw rw : Bool) (env : Env) (s : Storage) :
    (s.has_default_network = false →
      (cfg.SSID.isSome && cfg.PASS.isSome) = false →
      resolveNetwork cfg nw s = .ok (s, [Event.networkChecked])) ∧
    (s.has_robot_credentials = false →
      (cfg.ROBOT_ID.isSome && cfg.ROBOT_SECRET.isSome &&
        cfg.ROBOT_APP_ADDRESS.isSome) = false →
      resolveRobot cfg p rw s = .ok (s, [Event.robotChecked])) ∧
    ((cfg.SSID.isSome && cfg.PASS.isSome) = false →
      (cfg.ROBOT_ID.isSome && cfg.ROBOT_SECRET.isSome &&
        cfg.ROBOT_APP_ADDRESS.isSome) = false →
      env.certGenOk = true → env.wifiOk = true → env.mdnsOk = true →
      (main cfg env s).outcome = Outcome.running) := by
  refine ⟨fun _ h => resolveNetwork_partial cfg nw s h,
    fun _ h => resolveRobot_partial cfg p rw s h,
    fun hn hr hc hw hm => ?_⟩
  have h1 := resolveNetwork_partial cfg env.netWriteOk s hn
  have h2 := resolveRobot_partial cfg env.parseAddrOk env.robotWriteOk s hr
  simp [main, h1, h2, hc, hw, hm]

/-- C4 witness: empty storage, id and secret but no app address compiled
in, no network fallback at all: no writes, and boot reaches the server
loop. -/
theorem c4_partial_fallback_no_write_witness :
    resolveNetwork ⟨none, none, some "id", some "sec", none⟩ true
        ⟨none, none⟩ = .ok (⟨none, none⟩, [Event.networkChecked]) ∧
    resolveRobot ⟨none, none, some "id", some "sec", none⟩ (fun _ => true)
        true ⟨none, none⟩ = .ok (⟨none, none⟩, [Event.robotChecked]) ∧
    (main ⟨none, none, some "id", some "sec", none⟩
        ⟨fun _ => true, true, true, true, true, true, ⟨"der", "key"⟩, []⟩
        ⟨none, none⟩).outcome = Outcome.running := by
  refine ⟨?_, ?_, ?_⟩
  · exact (c4_partial_fallback_no_write
      ⟨none, none, some "id", some "sec", none⟩ (fun _ => true) true true
      ⟨fun _ => true, true, true, true, true, true, ⟨"der", "key"⟩, []⟩
      ⟨none, none⟩).1 rfl rfl
  · exact ((c4_partial_fallback_no_write
      ⟨none, none, some "id", some "sec", none⟩ (fun _ => true) true true
      ⟨fun _ => true, true, true, true, true, true, ⟨"der", "key"⟩, []⟩
      ⟨none, none⟩).2).1 rfl rfl
  · exact ((c4_partial_fallback_no_write
      ⟨none, none, some "id", some "sec", none⟩ (fun _ => true) true true
      ⟨fun _ => true, true, true, true, true, true, ⟨"der", "key"⟩, []⟩
      ⟨none, none⟩).2).2 rfl rfl rfl rfl rfl

/-- C5: with no stored robot credentials, a fully present device-identity
fallback and an app address the parser rejects, `RobotCredentials::new`
fails and the `.expect` aborts the process — no silent skip, no server. -/
theorem c5_unparsable_fallback_address_aborts (cfg : BuildConfig)
    (env : Env) (s : Storage) (id secret addr : String)
    (hrob : s.robot = none) (hid : cfg.ROBOT_ID = some id)
    (hsec : cfg.ROBOT_SECRET = some secret)
    (haddr : cfg.ROBOT_APP_ADDRESS = some addr)
    (hparse : env.parseAddrOk addr = false)
    (hnet : ∃ s1 t1, resolveNetwork cfg env.netWriteOk s = .ok (s1, t1)) :
    (main cfg env s).outcome = .panicked "failed to parse app address" ∧
    (main cfg env s).server = none := by
  obtain ⟨s1, t1, hn⟩ := hnet
  have hrob1 : s1.robot = none :=
    (resolveNetwork_robot cfg env.netWriteOk s s1 t1 hn).trans hrob
  have hr : resolveRobot cfg env.parseAddrOk env.robotWriteOk s1 =
      .error "failed to parse app address" := by
    simp [resolveRobot, Storage.has_robot_credentials, hrob1, hid, hsec,
      haddr, RobotCredentials.new, hparse]
  simp [main, hn, hr]

/-- C5 witness: empty storage, full identity fallback, rejecting parser:
the boot panics with the address-parse message and builds no server. -/
theorem c5_unparsable_fallback_address_aborts_witness :
    (main ⟨none, none, some "id", some "sec", some "bad"⟩
        ⟨fun _ => false, true, true, true, true, true, ⟨"der", "key"⟩, []⟩
        ⟨none, none⟩).outcome = .panicked "failed to parse app address" ∧
    (main ⟨none, none, some "id", some "sec", some "bad"⟩
        ⟨fun _ => false, true, true, true, true, true, ⟨"der", "key"⟩, []⟩
        ⟨none, none⟩).server = none :=
  c5_unparsable_fallback_address_aborts
    ⟨none, none, some "id", some "sec", some "bad"⟩
    ⟨fun _ => false, true, true, true, true, true, ⟨"der", "key"⟩, []⟩
    ⟨none, none⟩ "id" "sec" "bad" rfl rfl rfl rfl rfl
    ⟨⟨none, none⟩, [Event.networkChecked], rfl⟩

/-- C6: the Resource Supervisor's free-fraction computation is
`free / total * 100`; at the mock counters `(total=1000, free=250)` it
yields exactly 25 and renders as `25.00` under two-decimal formatting;
and at `(total=0, free=0)` the f32 division yields a non-finite value
without trapping — `memFreePct` is total, so nothing panics. -/
theorem c6_resource_supervisor_free_pct :
    (∀ free total : Nat, total ≠ 0 →
      memFreePct free total = some ((free : ℚ) / (total : ℚ) * 100)) ∧
    memFreePct 250 1000 = some 25 ∧
    format2 (memFreePct 250 1000) = "25.00" ∧
    memFreePct 0 0 = none := by
  have h25 : memFreePct 250 1000 = some 25 := by norm_num [memFreePct]
  refine ⟨fun free total ht => by simp [memFreePct, ht], h25, ?_, by decide⟩
  rw [h25]
  have h2 : round ((25 : ℚ) * 100) = 2500 := by norm_num [round_eq]
  simp only [format2, h2]
  decide

/-- C6 witness: the general free-fraction formula applied at the mock
counters. -/
theorem c6_resource_supervisor_free_pct_witness :
    memFreePct 250 1000 = some ((250 : ℚ) / (1000 : ℚ) * 100) :=
  c6_resource_supervisor_free_pct.1 250 1000 (by decide)

/-- C7: even when `register_modules` returns an error, `main` does not
abort: boot continues through certificate generation and server assembly,
and the built server carries exactly the registry contents left behind by
the partial registration. -/
theorem c7_registration_error_boot_continues (cfg : BuildConfig)
    (env : Env) (s0 s1 s2 : Storage) (t1 t2 : List Event)
    (hn : resolveNetwork cfg env.netWriteOk s0 = .ok (s1, t1))
    (hr : resolveRobot cfg env.parseAddrOk env.robotWriteOk s1 = .ok (s2, t2))
    (hreg : (register_modules env.modules []).2.isSome = true)
    (hc : env.certGenOk = true) (hw : env.wifiOk = true)
    (hm : env.mdnsOk = true) :
    (main cfg env s0).outcome = Outcome.running ∧
    Event.certGenerated ∈ (main cfg env s0).trace ∧
    Event.serverBuilt ∈ (main cfg env s0).trace ∧
    ∃ srv, (main cfg env s0).server = some srv ∧
      srv.registry = (register_modules env.modules []).1 := by
  simp [main, hn, hr, hc, hw, hm]

/-- C7 witness: with one succeeding and one failing module,
`register_modules` reports an error, yet the boot reaches the server loop
and the server's registry holds the succeeding module. -/
theorem c7_registration_error_boot_continues_witness :
    (main ⟨none, none, none, none, none⟩
        ⟨fun _ => true, true, true, true, true, true, ⟨"der", "key"⟩,
          [Module.mk "good" true, Module.mk "bad" false]⟩
        ⟨none, none⟩).outcome = Outcome.running ∧
    Event.certGenerated ∈ (main ⟨none, none, none, none, none⟩
        ⟨fun _ => true, true, true, true, true, true, ⟨"der", "key"⟩,
          [Module.mk "good" true, Module.mk "bad" false]⟩
        ⟨none, none⟩).trace ∧
    Event.serverBuilt ∈ (main ⟨none, none, none, none, none⟩
        ⟨fun _ => true, true, true, true, true, true, ⟨"der", "key"⟩,
          [Module.mk "good" true, Module.mk "bad" false]⟩
        ⟨none, none⟩).trace ∧
    ∃ srv, (main ⟨none, none, none, none, none⟩
        ⟨fun _ => true, true, true, true, true, true, ⟨"der", "key"⟩,
          [Module.mk "good" true, Module.mk "bad" false]⟩
        ⟨none, none⟩).server = some srv ∧
      srv.registry = (register_modules
        [Module.mk "good" true, Module.mk "bad" false] []).1 :=
  c7_registration_error_boot_continues ⟨none, none, none, none, none⟩
    ⟨fun _ => true, true, true, true, true, true, ⟨"der", "key"⟩,
      [Module.mk "good" true, Module.mk "bad" false]⟩
    ⟨none, none⟩ ⟨none, none⟩ ⟨none, none⟩
    [Event.networkChecked] [Event.robotChecked] rfl rfl (by decide)
    rfl rfl rfl

/-- C8: the built server's WebRTC configuration and its DTLS backend hold
`Rc` handles to the same allocation, and the shared value is exactly the
certificate the generator produced — nothing mutated it between creation
and server assembly. -/
theorem c8_shared_certificate (cfg : BuildConfig) (env : Env)
    (s0 s1 s2 : Storage) (t1 t2 : List Event)
    (hn : resolveNetwork cfg env.netWriteOk s0 = .ok (s1, t1))
    (hr : resolveRobot cfg env.parseAddrOk env.robotWriteOk s1 = .ok (s2, t2))
    (hc : env.certGenOk = true) (hw : env.wifiOk = true)
    (hm : env.mdnsOk = true) :
    ∃ srv, (main cfg env s0).server = some srv ∧
      srv.webrtc_config.dtls.cert = srv.webrtc_config.cert ∧
      srv.webrtc_config.dtls.cert.alloc = srv.webrtc_config.cert.alloc ∧
      srv.webrtc_config.cert.val = env.cert := by
  simp [main, hn, hr, hc, hw, hm, WebRtcConfiguration.new,
    Esp32DtlsBuilder.new, Rc.clone]

/-- C8 witness: at a concrete boot, the DTLS backend and the configuration
share one certificate allocation holding the generated value. -/
theorem c8_shared_certificate_witness :
    ∃ srv, (main ⟨none, none, none, none, none⟩
        ⟨fun _ => true, true, true, true, true, true, ⟨"der", "key"⟩, []⟩
        ⟨none, none⟩).server = some srv ∧
      srv.webrtc_config.dtls.cert = srv.webrtc_config.cert ∧
      srv.webrtc_config.dtls.cert.alloc = srv.webrtc_config.cert.alloc ∧
      srv.webrtc_config.cert.val = ⟨"der", "key"⟩ :=
  c8_shared_certificate ⟨none, none, none, none, none⟩
    ⟨fun _ => true, true, true, true, true, true, ⟨"der", "key"⟩, []⟩
    ⟨none, none⟩ ⟨none, none⟩ ⟨none, none⟩
    [Event.networkChecked] [Event.robotChecked] rfl rfl rfl rfl rfl

/-- C9: whenever boot reaches `run_forever`, the trace is the credential
resolution events followed, in this order, by registry initialization,
certificate generation, the supervisor spawn, server assembly and the
terminal server loop: resolution completes strictly before identity
generation and server assembly, registry initialization is a single
sequential step, and the Resource Supervisor is spawned before
`run_forever`. -/
theorem c9_boot_ordering (cfg : BuildConfig) (env : Env) (s0 : Storage)
    (hrun : (main cfg env s0).outcome = Outcome.running) :
    ∃ res : List Event, res.all Event.isResolutionEvent = true ∧
      (main cfg env s0).trace =
        res ++ [Event.registryInitialized, Event.certGenerated,
          Event.supervisorSpawned, Event.serverBuilt, Event.runForever] := by
  cases hn : resolveNetwork cfg env.netWriteOk s0 with
  | error msg => simp [main, hn] at hrun
  | ok p =>
    obtain ⟨s1, t1⟩ := p
    cases hr : resolveRobot cfg env.parseAddrOk env.robotWriteOk s1 with
    | error msg => simp [main, hn, hr] at hrun
    | ok q =>
      obtain ⟨s2, t2⟩ := q
      cases hc : env.certGenOk with
      | false => simp [main, hn, hr, hc] at hrun
      | true =>
        cases hw : env.wifiOk with
        | false => simp [main, hn, hr, hc, hw] at hrun
        | true =>
          cases hm : env.mdnsOk with
          | false => simp [main, hn, hr, hc, hw, hm] at hrun
          | true =>
            refine ⟨t1 ++ t2, ?_, ?_⟩
            · rw [List.all_append,
                resolveNetwork_events cfg env.netWriteOk s0 s1 t1 hn,
                resolveRobot_events cfg env.parseAddrOk env.robotWriteOk
                  s1 s2 t2 hr]
              rfl
            · simp [main, hn, hr, hc, hw, hm]

/-- C9 witness: the ordering at a concrete successful boot. -/
theorem c9_boot_ordering_witness :
    ∃ res : List Event, res.all Event.isResolutionEvent = true ∧
      (main ⟨none, none, none, none, none⟩
        ⟨fun _ => true, true, true, true, true, true, ⟨"der", "key"⟩, []⟩
        ⟨none, none⟩).trace =
        res ++ [Event.registryInitialized, Event.certGenerated,
          Event.supervisorSpawned, Event.serverBuilt, Event.runForever] :=
  c9_boot_ordering ⟨none, none, none, none, none⟩
    ⟨fun _ => true, true, true, true, true, true, ⟨"der", "key"⟩, []⟩
    ⟨none, none⟩ rfl

/-- C10: when a store-write of fallback credentials itself fails — the
network write, or the robot write after a successful network step — the
`.expect` panics right there: the boot never reaches registry
initialization, certificate generation or server assembly. -/
theorem c10_failed_store_aborts (cfg : BuildConfig) (env : Env)
    (s : Storage)
    (h :
      (s.has_default_network = false ∧ cfg.SSID.isSome = true ∧
        cfg.PASS.isSome = true ∧ env.netWriteOk = false) ∨
      ((∃ s1 t1, resolveNetwork cfg env.netWriteOk s = .ok (s1, t1)) ∧
        s.has_robot_credentials = false ∧
        (∃ id secret addr, cfg.ROBOT_ID = some id ∧
          cfg.ROBOT_SECRET = some secret ∧
          cfg.ROBOT_APP_ADDRESS = some addr ∧
          env.parseAddrOk addr = true) ∧
        env.robotWriteOk = false)) :
    ((main cfg env s).outcome =
        .panicked "failed to store network settings to storage" ∨
      (main cfg env s).outcome =
        .panicked "failed to store machine credentials to storage") ∧
    Event.registryInitialized ∉ (main cfg env s).trace ∧
    Event.certGenerated ∉ (main cfg env s).trace ∧
    Event.serverBuilt ∉ (main cfg env s).trace ∧
    (main cfg env s).server = none := by
  rcases h with ⟨hnet, hS, hP, hw⟩ |
    ⟨⟨s1, t1, hn⟩, hrobs, ⟨id, secret, addr, hid, hsec, haddr, hp⟩, hrw⟩
  · obtain ⟨ssid, hS2⟩ := Option.isSome_iff_exists.mp hS
    obtain ⟨pass, hP2⟩ := Option.isSome_iff_exists.mp hP
    have hn : resolveNetwork cfg env.netWriteOk s =
        .error "failed to store network settings to storage" := by
      simp [resolveNetwork, hnet, hS2, hP2, hw]
    have hmain : main cfg env s =
        ⟨.panicked "failed to store network settings to storage",
          [], s, [], none⟩ := by
      simp [main, hn]
    rw [hmain]
    exact ⟨Or.inl rfl, List.not_mem_nil _, List.not_mem_nil _,
      List.not_mem_nil _, rfl⟩
  · have hrob0 : s.robot = none := by
      cases hsr : s.robot with
      | none => rfl
      | some v => simp [Storage.has_robot_credentials, hsr] at hrobs
    have hrob1 : s1.robot = none :=
      (resolveNetwork_robot cfg env.netWriteOk s s1 t1 hn).trans hrob0
    have hr : resolveRobot cfg env.parseAddrOk env.robotWriteOk s1 =
        .error "failed to store machine credentials to storage" := by
      simp [resolveRobot, Storage.has_robot_credentials, hrob1, hid, hsec,
        haddr, RobotCredentials.new, hp, hrw]
    have ht1 := resolveNetwork_events cfg env.netWriteOk s s1 t1 hn
    have hmain : main cfg env s =
        ⟨.panicked "failed to store machine credentials to storage",
          t1, s1, [], none⟩ := by
      simp [main, hn, hr]
    rw [hmain]
    exact ⟨Or.inr rfl, not_mem_of_resolution_trace ht1 rfl,
      not_mem_of_resolution_trace ht1 rfl,
      not_mem_of_resolution_trace ht1 rfl, rfl⟩

/-- C10 witness: empty storage, full network fallback, failing NVS write:
the boot panics at the network store and never initializes the registry
or builds the server. -/
theorem c10_failed_store_aborts_witness :
    ((main ⟨some "net", some "pw", none, none, none⟩
        ⟨fun _ => true, false, true, true, true, true, ⟨"der", "key"⟩, []⟩
        ⟨none, none⟩).outcome =
        .panicked "failed to store network settings to storage" ∨
      (main ⟨some "net", some "pw", none, none, none⟩
        ⟨fun _ => true, false, true, true, true, true, ⟨"der", "key"⟩, []⟩
        ⟨none, none⟩).outcome =
        .panicked "failed to store machine credentials to storage") ∧
    Event.registryInitialized ∉ (main ⟨some "net", some "pw", none, none, none⟩
        ⟨fun _ => true, false, true, true, true, true, ⟨"der", "key"⟩, []⟩
        ⟨none, none⟩).trace ∧
    Event.certGenerated ∉ (main ⟨some "net", some "pw", none, none, none⟩
        ⟨fun _ => true, false, true, true, true, true, ⟨"der", "key"⟩, []⟩
        ⟨none, none⟩).trace ∧
    Event.serverBuilt ∉ (main ⟨some "net", some "pw", none, none, none⟩
        ⟨fun _ => true, false, true, true, true, true, ⟨"der", "key"⟩, []⟩
        ⟨none, none⟩).trace ∧
    (main ⟨some "net", some "pw", none, none, none⟩
        ⟨fun _ => true, false, true, true, true, true, ⟨"der", "key"⟩, []⟩
        ⟨none, none⟩).server = none :=
  c10_failed_store_aborts ⟨some "net", some "pw", none, none, none⟩
    ⟨fun _ => true, false, true, true, true, true, ⟨"der", "key"⟩, []⟩
    ⟨none, none⟩ (Or.inl ⟨rfl, rfl, rfl, rfl⟩)

end MicroRdk
